import Mathlib

/-!
Verification of the GGB device-capability-adaptive node.

The repository ships the JNI glue (`williw_jni.cpp`, `ggb_jni.cpp`, the
tauri variant) in C++; the capability/adaptation core behind the
`williw_node_*` / `ggb_node_*` FFI symbols is a Rust library whose source
is not part of the repository snapshot.  Definitions below are therefore
of two kinds:

* embeddings of the C++ code that is present (the `android_get_device_info`
  callbacks, the JNI wrappers, the global registration slots), translated
  branch by branch from the source;
* models of the missing Rust core, each marked `Modelled from the spec:`
  and built from the specification text alone.
-/

/-- Network class carried by a snapshot (spec §3 data model). -/
inductive NetworkType where
  | unknown
  | wifi
  | cellular
  | ethernet
  | offline
  deriving DecidableEq, Repr

/-- A host-platform float as far as the battery interface needs it:
either NaN or an exact rational value. -/
inductive FVal where
  | nan
  | num (q : ℚ)
  deriving DecidableEq, Repr

/-- Modelled from the spec: the DeviceSnapshot of §3 (the Rust core type
behind `williw_node_*` is not in the repository snapshot).  Battery level
is a rational in [0,1] or the sentinel -1. -/
structure DeviceSnapshot where
  memory_mb : Nat
  cpu_cores : Nat
  network_type : NetworkType
  battery_level : ℚ
  is_charging : Bool
  last_refreshed_at : Nat
  deriving DecidableEq, Repr

/-- Modelled from the spec: one telemetry reading produced by a
successful callback invocation (spec §4.1/§6). -/
structure TelemetryReading where
  memory_mb : Nat
  cpu_cores : Nat
  network_type : NetworkType
  battery_level : FVal
  is_charging : Bool
  deriving DecidableEq, Repr

/-- Modelled from the spec: a Node owns one snapshot and at most one
telemetry source (spec §3).  The source is modelled by the result it
would deliver when invoked: a status and, with it, a reading. -/
structure Node where
  snapshot : DeviceSnapshot
  callback : Option (Nat × TelemetryReading)
  deriving DecidableEq, Repr

/-- Status code 0 = success (spec §6). -/
def STATUS_OK : Nat := 0

/-- Modelled from the spec: nonzero status class for a missing or failed
telemetry source (spec §7 `SourceUnavailable`). -/
def STATUS_SOURCE_UNAVAILABLE : Nat := 3

/-- Modelled from the spec: the low-battery threshold of §4.3 (the exact
constant lives in the missing Rust core; the spec only requires "a low
threshold"). -/
def BATTERY_LOW_THRESHOLD : ℚ := 15 / 100

/-- Modelled from the spec: the absolute minimum memory floor of §4.3. -/
def MIN_MEMORY_MB : Nat := 128

/-- Modelled from the spec: the absolute minimum CPU-core floor of §4.3. -/
def MIN_CPU_CORES : Nat := 1

/-- Modelled from the spec: battery clamping of `update_battery`
(spec §4.2): the exact sentinel -1 passes through unchanged, any other
out-of-range value is clamped to the nearest bound of [0,1], NaN is
clamped to a bound (0, the conservative one), in-range values are kept. -/
def clampBattery : FVal → ℚ
  | FVal.nan => 0
  | FVal.num q => if q = -1 then q else if q < 0 then 0 else if 1 < q then 1 else q

/-- Modelled from the spec: memory step of `recommended_model_dim`
(spec §4.3: monotone non-decreasing step function of memory_mb). -/
def memStep (m : Nat) : Nat :=
  if 8192 ≤ m then 8 else if 4096 ≤ m then 4 else if 2048 ≤ m then 2 else 1

/-- Modelled from the spec: core step of `recommended_model_dim`
(spec §4.3: monotone non-decreasing in cpu_cores). -/
def coreStep (c : Nat) : Nat := if 8 ≤ c then 2 else 1

/-- Modelled from the spec: `recommended_model_dim` (spec §4.3): a
monotone step function of memory and cores with floor 64 and a bounded
maximum (1024) regardless of reported memory. -/
def recommendedModelDim (s : DeviceSnapshot) : Nat :=
  min 1024 (64 * memStep s.memory_mb * coreStep s.cpu_cores)

/-- Modelled from the spec: resource-dependent base of
`recommended_tick_interval` (spec §4.3: non-increasing in resources,
never zero). -/
def baseTick (s : DeviceSnapshot) : Nat :=
  if 4096 ≤ s.memory_mb ∧ 8 ≤ s.cpu_cores then 1000
  else if 2048 ≤ s.memory_mb then 2000 else 4000

/-- Modelled from the spec: network cost factor of
`recommended_tick_interval` (spec §4.3: costlier network → slower). -/
def netFactor : NetworkType → Nat
  | NetworkType.wifi => 1
  | NetworkType.ethernet => 1
  | NetworkType.cellular => 2
  | NetworkType.unknown => 2
  | NetworkType.offline => 4

/-- Modelled from the spec: battery factor of
`recommended_tick_interval` (spec §4.3: slower when battery is low or
unknown and not charging). -/
def battFactor (s : DeviceSnapshot) : Nat :=
  if s.is_charging then 1
  else if s.battery_level = -1 then 2
  else if s.battery_level < BATTERY_LOW_THRESHOLD then 3 else 1

/-- Modelled from the spec: `recommended_tick_interval` in milliseconds
(spec §4.3). -/
def recommendedTickInterval (s : DeviceSnapshot) : Nat :=
  baseTick s * netFactor s.network_type * battFactor s

/-- Modelled from the spec: `should_pause_training` (spec §4.3): true
exactly when a hard constraint is violated — battery known (not the -1
sentinel), below the low threshold and not charging; or network offline;
or memory/cpu below the absolute floors — false otherwise, unknown
battery deliberately fail-open. -/
def shouldPauseTraining (s : DeviceSnapshot) : Bool :=
  (decide (¬ s.battery_level = -1) && decide (s.battery_level < BATTERY_LOW_THRESHOLD)
      && !s.is_charging)
  || decide (s.network_type = NetworkType.offline)
  || decide (s.memory_mb < MIN_MEMORY_MB)
  || decide (s.cpu_cores < MIN_CPU_CORES)

/-- Modelled from the spec: the CapabilityDescriptor of §3 — the three
derived recommendations plus echoed snapshot fields. -/
structure CapabilityDescriptor where
  recommended_model_dim : Nat
  recommended_tick_interval_ms : Nat
  should_pause_training : Bool
  memory_mb : Nat
  cpu_cores : Nat
  network_type : NetworkType
  battery_level : ℚ
  is_charging : Bool
  deriving DecidableEq, Repr

/-- Modelled from the spec: the pure snapshot → descriptor derivation
(spec §3: "Entirely recomputed from DeviceSnapshot"). -/
def deriveCaps (s : DeviceSnapshot) : CapabilityDescriptor :=
  { recommended_model_dim := recommendedModelDim s
    recommended_tick_interval_ms := recommendedTickInterval s
    should_pause_training := shouldPauseTraining s
    memory_mb := s.memory_mb
    cpu_cores := s.cpu_cores
    network_type := s.network_type
    battery_level := s.battery_level
    is_charging := s.is_charging }

/-- Text name of a network type for serialization. -/
def networkTypeName : NetworkType → String
  | NetworkType.unknown => "unknown"
  | NetworkType.wifi => "wifi"
  | NetworkType.cellular => "cellular"
  | NetworkType.ethernet => "ethernet"
  | NetworkType.offline => "offline"

/-- Modelled from the spec: JSON-like serialization of a descriptor
(spec §6 documented keys). -/
def serializeCaps (d : CapabilityDescriptor) : String :=
  "\x7b\"recommended_model_dim\":" ++ toString d.recommended_model_dim
    ++ ",\"recommended_tick_interval_ms\":" ++ toString d.recommended_tick_interval_ms
    ++ ",\"should_pause_training\":" ++ (if d.should_pause_training then "true" else "false")
    ++ ",\"memory_mb\":" ++ toString d.memory_mb
    ++ ",\"cpu_cores\":" ++ toString d.cpu_cores
    ++ ",\"network_type\":\"" ++ networkTypeName d.network_type
    ++ "\",\"battery_level\":" ++ toString d.battery_level
    ++ ",\"is_charging\":" ++ (if d.is_charging then "true" else "false")
    ++ "\x7d"

/-- Modelled from the spec: default snapshot of a fresh node (spec §3:
memory 2048, cores 4, network unknown, battery unknown, not charging). -/
def defaultSnapshot : DeviceSnapshot :=
  { memory_mb := 2048, cpu_cores := 4, network_type := NetworkType.unknown
    battery_level := -1, is_charging := false, last_refreshed_at := 0 }

/-- Modelled from the spec: `create` (spec §4.2): defaults, no telemetry
source bound; never fails. -/
def createNode : Node := { snapshot := defaultSnapshot, callback := none }

/-- Modelled from the spec: `update_battery` (spec §4.2): clamp the
level, store the charging flag, succeed. -/
def updateBattery (n : Node) (level : FVal) (charging : Bool) : Nat × Node :=
  (STATUS_OK,
    { n with snapshot :=
        { n.snapshot with battery_level := clampBattery level, is_charging := charging } })

/-- Modelled from the spec: how a successful telemetry reading overwrites
the whole snapshot as one unit (spec §4.2 `refresh_device_info`). -/
def applyReading (now : Nat) (r : TelemetryReading) : DeviceSnapshot :=
  { memory_mb := r.memory_mb
    cpu_cores := r.cpu_cores
    network_type := r.network_type
    battery_level := clampBattery r.battery_level
    is_charging := r.is_charging
    last_refreshed_at := now }

/-- Modelled from the spec: `refresh_device_info` (spec §4.2): invoke
the registered source if any; on success overwrite the snapshot
atomically; on failure or absent source leave the snapshot unchanged and
return `SourceUnavailable`. -/
def refreshDeviceInfo (now : Nat) (n : Node) : Nat × Node :=
  match n.callback with
  | none => (STATUS_SOURCE_UNAVAILABLE, n)
  | some (st, r) =>
    if st = 0 then (STATUS_OK, { n with snapshot := applyReading now r })
    else (STATUS_SOURCE_UNAVAILABLE, n)

/-- Modelled from the spec: `get_capabilities` (spec §4.2): recompute
from the current snapshot, touch nothing, always succeed. -/
def getCapabilities (n : Node) : String × Node :=
  (serializeCaps (deriveCaps n.snapshot), n)

/-! ## Embedding of `android_get_device_info` (williw_jni.cpp lines 31-203)

The callback's control flow depends on which JNI lookups and Java calls
succeed; an `AndroidCallEnv` records those outcomes.  Each output pointer
of the C signature becomes a `Bool` (supplied or null) paired with an
`Option` result slot: `none` means the C code never stored through that
pointer. -/

/-- Outcomes of the JNI lookups and Java calls made by the williw
`android_get_device_info` (source lines 39-192). -/
structure AndroidCallEnv where
  jvmAndNodeSet : Bool
  envOk : Bool
  classOk : Bool
  methodIdsOk : Bool
  memoryExc : Bool
  memoryVal : Nat
  cpuExc : Bool
  cpuVal : Nat
  netExc : Bool
  netStr : Option String
  ctxSet : Bool
  ctxClassOk : Bool
  getSysServiceMidOk : Bool
  batteryMgrOk : Bool
  batteryMgrClassOk : Bool
  getIntPropMidOk : Bool
  batteryCallExc : Bool
  batteryRaw : Int
  isChargingMidOk : Bool
  chargingCallExc : Bool
  chargingVal : Bool
  deriving DecidableEq, Repr

/-- Result of one williw `android_get_device_info` call: the returned
status and, per output slot, `some v` if the code stored `v` through the
pointer, `none` if it left the slot untouched. -/
structure DevInfoOut where
  status : Nat
  memory : Option Nat
  cpu : Option Nat
  net : Option String
  battery : Option ℚ
  charging : Option Bool
  deriving DecidableEq, Repr

/-- Network string stored by the williw callback when the pointer is
supplied and the capacity is positive (source lines 101-127): the Java
string truncated to the capacity minus one, or "unknown" likewise
truncated on exception or null. -/
def williwNetValue (e : AndroidCallEnv) (netLen : Nat) : String :=
  if e.netExc then "unknown".take (netLen - 1)
  else match e.netStr with
    | some s => s.take (netLen - 1)
    | none => "unknown".take (netLen - 1)

/-- Battery level stored on the fully successful battery path (source
lines 147-162): raw/100 when the call succeeds with 0 ≤ raw ≤ 100, else
the -1 sentinel. -/
def williwBatteryValue (e : AndroidCallEnv) : ℚ :=
  if e.getIntPropMidOk ∧ ¬ e.batteryCallExc ∧ 0 ≤ e.batteryRaw ∧ e.batteryRaw ≤ 100
  then (e.batteryRaw : ℚ) / 100 else -1

/-- Charging flag stored on the fully successful battery path (source
lines 164-179). -/
def williwChargingValue (e : AndroidCallEnv) : Bool :=
  if e.isChargingMidOk ∧ ¬ e.chargingCallExc then e.chargingVal else false

/-- Embedding of the williw `android_get_device_info` (source lines
31-203).  `memP cpuP batP chgP netP` say which output pointers the caller
supplied; `netLen` is `network_type_len`.  Mirrors the source branch by
branch; in particular the battery section writes nothing, yet the
function still returns 0, when `g_context` is set but one of the
context-class / getSystemService-method / battery-manager /
battery-manager-class lookups fails (source lines 130-192). -/
def williwGetDeviceInfo (e : AndroidCallEnv)
    (memP cpuP netP : Bool) (netLen : Nat) (batP chgP : Bool) : DevInfoOut :=
  if ¬ e.jvmAndNodeSet then ⟨1, none, none, none, none, none⟩
  else if ¬ e.envOk then ⟨1, none, none, none, none, none⟩
  else if ¬ e.classOk then ⟨1, none, none, none, none, none⟩
  else if ¬ e.methodIdsOk then ⟨1, none, none, none, none, none⟩
  else
    let mem := if memP then some (if e.memoryExc then 2048 else e.memoryVal) else none
    let cpu := if cpuP then some (if e.cpuExc then 4 else e.cpuVal) else none
    let net := if netP ∧ 0 < netLen then some (williwNetValue e netLen) else none
    let batChg :=
      if batP ∨ chgP then
        if e.ctxSet then
          if e.ctxClassOk ∧ e.getSysServiceMidOk ∧ e.batteryMgrOk ∧ e.batteryMgrClassOk then
            (if batP then some (williwBatteryValue e) else none,
             if chgP then some (williwChargingValue e) else none)
          else (none, none)
        else (if batP then some (-1 : ℚ) else none, if chgP then some false else none)
      else (none, none)
    ⟨0, mem, cpu, net, batChg.1, batChg.2⟩

/-- A concrete call environment in which every JNI step succeeds except
that `getSystemService("battery")` yields a null battery manager
(source line 143 guard fails). -/
def batteryMgrNullEnv : AndroidCallEnv :=
  { jvmAndNodeSet := true, envOk := true, classOk := true, methodIdsOk := true
    memoryExc := false, memoryVal := 4096, cpuExc := false, cpuVal := 8
    netExc := false, netStr := some "wifi"
    ctxSet := true, ctxClassOk := true, getSysServiceMidOk := true
    batteryMgrOk := false, batteryMgrClassOk := true
    getIntPropMidOk := true, batteryCallExc := false, batteryRaw := 80
    isChargingMidOk := true, chargingCallExc := false, chargingVal := true }

/-! ## Embedding of the network-buffer writes (C9)

`size_t` arithmetic is modelled as Nat mod 2^64.  For each variant we
record the number of bytes the `strncpy` stores (at indices 0..count-1)
and the index of the final explicit NUL store. -/

/-- Modulus of `size_t` arithmetic on the 64-bit Android targets. -/
def SIZE_T_MOD : Nat := 2 ^ 64

/-- Bytes stored by `strncpy(network_type, "unknown", network_type_len - 1)`
in the ggb variant (ggb_jni.cpp line 61): `strncpy` with count
`(len - 1) mod 2^64` stores exactly that many bytes (source truncated,
then NUL-padded) at indices 0 .. count-1. -/
def ggbNetStrncpyCount (len : Nat) : Nat := (len + (SIZE_T_MOD - 1)) % SIZE_T_MOD

/-- Index of the explicit terminator store
`network_type[network_type_len - 1] = 0` in the ggb variant
(ggb_jni.cpp line 62). -/
def ggbNetTermIndex (len : Nat) : Nat := (len + (SIZE_T_MOD - 1)) % SIZE_T_MOD

/-- Every byte the ggb variant stores into the caller's network buffer
lies strictly below the supplied capacity. -/
def ggbNetWritesWithinCapacity (len : Nat) : Prop :=
  ggbNetStrncpyCount len ≤ len ∧ ggbNetTermIndex len < len

/-- Writes of the williw variant's successful network path (williw_jni.cpp
lines 108-122), guarded by `network_type && network_type_len > 0`:
`none` when the guard fails (no store at all), otherwise the number of
string bytes copied (`copy_len = min (strlen src) (len - 1)`, indices
0..copy_len-1) and the terminator index `copy_len`. -/
def williwNetWrites (srcLen len : Nat) : Option (Nat × Nat) :=
  if len = 0 then none else some (min srcLen (len - 1), min srcLen (len - 1))

/-- Writes of the williw variant's fallback network path (williw_jni.cpp
lines 106-107, 119-120, 124-125), also guarded by `network_type_len > 0`:
`strncpy(dst, "unknown", len - 1)` stores len-1 bytes at 0..len-2 and the
terminator store hits index len-1. -/
def williwNetFallbackWrites (len : Nat) : Option (Nat × Nat) :=
  if len = 0 then none else some (len - 1, len - 1)

/-! ## Embedding of the registration globals (C10)

williw_jni.cpp lines 10-13 hold one process-wide `g_ggb_node` /
`g_context` pair; `nativeSetDeviceCallback` (lines 264-283) overwrites
both and sets the per-handle Rust callback pointer.  Java objects are
identified by numbers. -/

/-- The process-wide globals of williw_jni.cpp lines 10-13. -/
structure JniGlobals where
  gGgbNode : Option Nat
  gContext : Option Nat
  deriving DecidableEq, Repr

/-- Embedding of `Java_com_williw_WilliwNode_nativeSetDeviceCallback`
(williw_jni.cpp lines 264-283): replace both global references with the
new objects and mark the Rust-side callback of `handle` as set. -/
def nativeSetDeviceCallback (_g : JniGlobals) (cbSet : Nat → Bool)
    (handle thizObj ctxObj : Nat) : JniGlobals × (Nat → Bool) :=
  (⟨some thizObj, some ctxObj⟩, fun h => if h = handle then true else cbSet h)

/-- The Java object a node's refresh would query: `android_get_device_info`
reads the process-wide `g_ggb_node` (williw_jni.cpp line 39 / lines 59+),
so any node whose Rust callback is set sees the same global object. -/
def effectiveTelemetrySource (g : JniGlobals) (cbSet : Nat → Bool) (h : Nat) : Option Nat :=
  if cbSet h then g.gGgbNode else none

/-! ## Embedding of the get-capabilities wrappers (C4) -/

/-- Embedding of `Java_com_williw_WilliwNode_nativeGetCapabilities`
(williw_jni.cpp lines 216-225): a null char* from the core becomes the
literal text of two braces, otherwise the core string is passed on. -/
def nativeGetCapabilitiesWrap (json : Option String) : String :=
  match json with
  | none => "\x7b\x7d"
  | some s => s

/-- Embedding of `Java_com_williw_mobile_WilliwNode_getCapabilities`
(tauri williw_jni.cpp lines 170-187): error-keyed descriptors for a null
handle or an unloaded Rust library, otherwise the core result. -/
def tauriGetCapabilities (ptrNull : Bool) (libLoaded : Bool) (n : Node) : String :=
  if ptrNull then "\x7b\"error\":\"Node pointer is null\"\x7d"
  else if ¬ libLoaded then "\x7b\"error\":\"Rust library not loaded\"\x7d"
  else (getCapabilities n).1

/-- Sample telemetry reading, used to instantiate witnesses. -/
def sampleReading : TelemetryReading :=
  { memory_mb := 4096, cpu_cores := 8, network_type := NetworkType.wifi
    battery_level := FVal.num (8/10), is_charging := true }

/-- A node whose telemetry source answers with a failure status. -/
def nodeWithFailingSource : Node :=
  { snapshot := defaultSnapshot, callback := some (1, sampleReading) }

/-- A node whose telemetry source answers with success. -/
def nodeWithGoodSource : Node :=
  { snapshot := defaultSnapshot, callback := some (0, sampleReading) }

/-! ## Theorems -/

/-- A string append whose right part is nonempty is nonempty. -/
theorem append_ne_empty_of_right (a b : String) (h : 0 < b.length) : a ++ b ≠ "" := by
  intro he
  have hl := congrArg String.length he
  rw [String.length_append] at hl
  have h0 : ("" : String).length = 0 := rfl
  rw [h0] at hl
  omega

/-- The serialized descriptor is never the empty string. -/
theorem serializeCaps_ne_empty (d : CapabilityDescriptor) : serializeCaps d ≠ "" := by
  unfold serializeCaps
  exact append_ne_empty_of_right _ _ (by decide)

/-- C1: `should_pause_training` returns true exactly when a hard
constraint is violated — battery known (not the -1 sentinel), below the
low threshold and not charging; or network offline; or memory/cpu below
the absolute floors — and false otherwise; in particular it is false for
unknown battery on an otherwise-healthy snapshot (fail-open) and true
whenever the network is offline, regardless of every other field. -/
theorem C1_should_pause_training_spec :
    (∀ s : DeviceSnapshot, shouldPauseTraining s = true ↔
      ((s.battery_level ≠ -1 ∧ s.battery_level < BATTERY_LOW_THRESHOLD ∧ s.is_charging = false)
        ∨ s.network_type = NetworkType.offline
        ∨ s.memory_mb < MIN_MEMORY_MB ∨ s.cpu_cores < MIN_CPU_CORES)) ∧
    (∀ s : DeviceSnapshot, s.network_type = NetworkType.offline →
      shouldPauseTraining s = true) ∧
    (∀ s : DeviceSnapshot, s.battery_level = -1 → s.is_charging = false →
      s.network_type ≠ NetworkType.offline → MIN_MEMORY_MB ≤ s.memory_mb →
      MIN_CPU_CORES ≤ s.cpu_cores → shouldPauseTraining s = false) := by
  have main : ∀ s : DeviceSnapshot, shouldPauseTraining s = true ↔
      ((s.battery_level ≠ -1 ∧ s.battery_level < BATTERY_LOW_THRESHOLD ∧ s.is_charging = false)
        ∨ s.network_type = NetworkType.offline
        ∨ s.memory_mb < MIN_MEMORY_MB ∨ s.cpu_cores < MIN_CPU_CORES) := by
    intro s
    simp only [shouldPauseTraining, Bool.or_eq_true, Bool.and_eq_true, decide_eq_true_eq,
      Bool.not_eq_true']
    tauto
  refine ⟨main, fun s h => (main s).2 (Or.inr (Or.inl h)), fun s hb hc hn hm hcpu => ?_⟩
  cases hp : shouldPauseTraining s
  · rfl
  · rcases (main s).1 hp with ⟨h1, _, _⟩ | h | h | h
    · exact absurd hb h1
    · exact absurd h hn
    · omega
    · omega

/-- Closed witness for C1 at concrete snapshots: an offline snapshot with
full charging battery still pauses, and an unknown-battery wifi snapshot
with default resources does not. -/
theorem C1_witness :
    shouldPauseTraining
      { memory_mb := 4096, cpu_cores := 8, network_type := NetworkType.offline
        battery_level := 1, is_charging := true, last_refreshed_at := 0 } = true ∧
    shouldPauseTraining
      { memory_mb := 2048, cpu_cores := 4, network_type := NetworkType.wifi
        battery_level := -1, is_charging := false, last_refreshed_at := 0 } = false :=
  ⟨C1_should_pause_training_spec.2.1 _ rfl,
   C1_should_pause_training_spec.2.2 _ rfl rfl (by decide) (by decide) (by decide)⟩

/-- C5: for every snapshot the recommended model dimension lies between
the positive floor 64 and the bounded maximum 1024, the recommended tick
interval is strictly positive, and both defaults of a freshly created
node are nonzero. -/
theorem C5_derived_bounds :
    (∀ s : DeviceSnapshot, 64 ≤ recommendedModelDim s ∧ recommendedModelDim s ≤ 1024 ∧
      0 < recommendedTickInterval s) ∧
    0 < recommendedModelDim createNode.snapshot ∧
    0 < recommendedTickInterval createNode.snapshot := by
  refine ⟨fun s => ⟨?_, ?_, ?_⟩, by decide, by decide⟩
  · unfold recommendedModelDim memStep coreStep
    split_ifs <;> norm_num
  · exact Nat.min_le_left _ _
  · have h1 : 0 < baseTick s := by unfold baseTick; split_ifs <;> norm_num
    have h2 : 0 < netFactor s.network_type := by cases s.network_type <;> decide
    have h3 : 0 < battFactor s := by unfold battFactor; split_ifs <;> norm_num
    exact Nat.mul_pos (Nat.mul_pos h1 h2) h3

/-- C6: `recommended_model_dim` is monotone non-decreasing in memory_mb
and cpu_cores jointly; in particular two snapshots differing only in
memory_mb are ordered accordingly. -/
theorem C6_model_dim_monotone :
    ∀ a b : DeviceSnapshot, a.memory_mb ≤ b.memory_mb → a.cpu_cores ≤ b.cpu_cores →
      recommendedModelDim a ≤ recommendedModelDim b := by
  intro a b hm hc
  have h1 : memStep a.memory_mb ≤ memStep b.memory_mb := by
    unfold memStep; split_ifs <;> omega
  have h2 : coreStep a.cpu_cores ≤ coreStep b.cpu_cores := by
    unfold coreStep; split_ifs <;> omega
  unfold recommendedModelDim
  exact min_le_min le_rfl (Nat.mul_le_mul (Nat.mul_le_mul le_rfl h1) h2)

/-- Closed witness for C6: two snapshots equal except for memory. -/
theorem C6_witness :
    recommendedModelDim
      { memory_mb := 1024, cpu_cores := 4, network_type := NetworkType.wifi
        battery_level := 1/2, is_charging := false, last_refreshed_at := 0 } ≤
    recommendedModelDim
      { memory_mb := 8192, cpu_cores := 4, network_type := NetworkType.wifi
        battery_level := 1/2, is_charging := false, last_refreshed_at := 0 } :=
  C6_model_dim_monotone _ _ (by decide) (by decide)

/-- C7: the derived fields embedded in the descriptor produced by
`get_capabilities` coincide with independent direct calls to the three
deriver functions on the same snapshot, and `get_capabilities` is the
serialization of exactly that descriptor. -/
theorem C7_descriptor_consistency :
    ∀ n : Node,
      (deriveCaps n.snapshot).recommended_model_dim = recommendedModelDim n.snapshot ∧
      (deriveCaps n.snapshot).recommended_tick_interval_ms = recommendedTickInterval n.snapshot ∧
      (deriveCaps n.snapshot).should_pause_training = shouldPauseTraining n.snapshot ∧
      (getCapabilities n).1 = serializeCaps (deriveCaps n.snapshot) :=
  fun _ => ⟨rfl, rfl, rfl, rfl⟩

/-- C2: `update_battery` passes the exact -1 sentinel through unchanged,
keeps in-range levels as given, clamps levels above 1 to 1 and negative
non-sentinel levels to 0, clamps NaN to a bound of [0,1], and always
succeeds while storing the charging flag. -/
theorem C2_update_battery_clamp :
    (∀ (n : Node) (c : Bool),
      (updateBattery n (FVal.num (-1)) c).2.snapshot.battery_level = -1) ∧
    (∀ (n : Node) (c : Bool) (q : ℚ), 0 ≤ q → q ≤ 1 →
      (updateBattery n (FVal.num q) c).2.snapshot.battery_level = q) ∧
    (∀ (n : Node) (c : Bool) (q : ℚ), 1 < q →
      (updateBattery n (FVal.num q) c).2.snapshot.battery_level = 1) ∧
    (∀ (n : Node) (c : Bool) (q : ℚ), q < 0 → q ≠ -1 →
      (updateBattery n (FVal.num q) c).2.snapshot.battery_level = 0) ∧
    (∀ (n : Node) (c : Bool),
      (updateBattery n FVal.nan c).2.snapshot.battery_level = 0 ∨
      (updateBattery n FVal.nan c).2.snapshot.battery_level = 1) ∧
    (∀ (n : Node) (l : FVal) (c : Bool), (updateBattery n l c).1 = STATUS_OK ∧
      (updateBattery n l c).2.snapshot.is_charging = c) := by
  have hc : ∀ (n : Node) (l : FVal) (c : Bool),
      (updateBattery n l c).2.snapshot.battery_level = clampBattery l := fun _ _ _ => rfl
  refine ⟨?_, ?_, ?_, ?_, ?_, fun n l c => ⟨rfl, rfl⟩⟩
  · intro n c; rw [hc]; simp [clampBattery]
  · intro n c q h0 h1
    rw [hc]; simp only [clampBattery]
    split_ifs <;> linarith
  · intro n c q h
    rw [hc]; simp only [clampBattery]
    split_ifs <;> linarith
  · intro n c q hlt hne
    rw [hc]; simp only [clampBattery]
    split_ifs with ha <;> first | exact absurd ha hne | linarith
  · intro n c
    left; rw [hc]; rfl

/-- Closed witness for C2: the sentinel is accepted unchanged, 1.5 clamps
to 1, and -0.3 clamps to 0 rather than being confused with the sentinel. -/
theorem C2_witness :
    (updateBattery createNode (FVal.num (-1)) false).2.snapshot.battery_level = -1 ∧
    (updateBattery createNode (FVal.num (3/2)) true).2.snapshot.battery_level = 1 ∧
    (updateBattery createNode (FVal.num (-3/10)) false).2.snapshot.battery_level = 0 :=
  ⟨C2_update_battery_clamp.1 createNode false,
   C2_update_battery_clamp.2.2.1 createNode true (3/2) (by norm_num),
   C2_update_battery_clamp.2.2.2.1 createNode false (-3/10) (by norm_num) (by norm_num)⟩

/-- C3: with no telemetry source, or with a source answering a nonzero
status, `refresh_device_info` returns `SourceUnavailable` and the node —
snapshot included — is exactly what it was; with a successful source the
snapshot is replaced as one unit; the observable snapshot is always
either the old one or a complete fresh reading, never a mixture. -/
theorem C3_refresh_atomic :
    (∀ (now : Nat) (n : Node), n.callback = none →
      refreshDeviceInfo now n = (STATUS_SOURCE_UNAVAILABLE, n)) ∧
    (∀ (now : Nat) (n : Node) (st : Nat) (r : TelemetryReading),
      n.callback = some (st, r) → st ≠ 0 →
      refreshDeviceInfo now n = (STATUS_SOURCE_UNAVAILABLE, n)) ∧
    (∀ (now : Nat) (n : Node) (r : TelemetryReading), n.callback = some (0, r) →
      refreshDeviceInfo now n = (STATUS_OK, { n with snapshot := applyReading now r })) ∧
    (∀ (now : Nat) (n : Node), (refreshDeviceInfo now n).2.snapshot = n.snapshot ∨
      ∃ r, n.callback = some (0, r) ∧
        (refreshDeviceInfo now n).2.snapshot = applyReading now r) := by
  refine ⟨?_, ?_, ?_, ?_⟩
  · intro now n h; simp [refreshDeviceInfo, h]
  · intro now n st r h hst; simp [refreshDeviceInfo, h, hst]
  · intro now n r h; simp [refreshDeviceInfo, h]
  · intro now n
    rcases hcb : n.callback with _ | ⟨st, r⟩
    · left; simp [refreshDeviceInfo, hcb]
    · by_cases hst : st = 0
      · subst hst
        right
        exact ⟨r, rfl, by simp [refreshDeviceInfo, hcb]⟩
      · left; simp [refreshDeviceInfo, hcb, hst]

/-- Closed witness for C3: a fresh node (no source), a node with a failing
source, and a node with a successful source. -/
theorem C3_witness :
    refreshDeviceInfo 5 createNode = (STATUS_SOURCE_UNAVAILABLE, createNode) ∧
    refreshDeviceInfo 5 nodeWithFailingSource = (STATUS_SOURCE_UNAVAILABLE, nodeWithFailingSource) ∧
    refreshDeviceInfo 5 nodeWithGoodSource =
      (STATUS_OK, { nodeWithGoodSource with snapshot := applyReading 5 sampleReading }) :=
  ⟨C3_refresh_atomic.1 5 createNode rfl,
   C3_refresh_atomic.2.1 5 nodeWithFailingSource 1 sampleReading rfl (by decide),
   C3_refresh_atomic.2.2.1 5 nodeWithGoodSource sampleReading rfl⟩

/-- C4: `get_capabilities` always succeeds with a nonempty serialized
descriptor, leaves the node (telemetry source included) untouched,
depends only on the snapshot, and the JNI wrappers turn every internal
failure into a default or error-keyed descriptor instead of failing. -/
theorem C4_get_capabilities_total :
    (∀ n : Node, (getCapabilities n).1 ≠ "" ∧ (getCapabilities n).2 = n) ∧
    (∀ a b : Node, a.snapshot = b.snapshot →
      (getCapabilities a).1 = (getCapabilities b).1) ∧
    nativeGetCapabilitiesWrap none = "\x7b\x7d" ∧
    (∀ s : String, nativeGetCapabilitiesWrap (some s) = s) ∧
    (∀ (loaded : Bool) (n : Node), tauriGetCapabilities true loaded n =
      "\x7b\"error\":\"Node pointer is null\"\x7d") ∧
    (∀ n : Node, tauriGetCapabilities false false n =
      "\x7b\"error\":\"Rust library not loaded\"\x7d") ∧
    (∀ n : Node, tauriGetCapabilities false true n = serializeCaps (deriveCaps n.snapshot)) := by
  refine ⟨fun n => ⟨serializeCaps_ne_empty _, rfl⟩, ?_, rfl, fun s => rfl, fun loaded n => rfl,
    fun n => rfl, fun n => rfl⟩
  intro a b h
  simp only [getCapabilities, h]

/-- Closed witness for C4 at the fresh node. -/
theorem C4_witness :
    (getCapabilities createNode).1 ≠ "" ∧ (getCapabilities createNode).2 = createNode ∧
    (getCapabilities createNode).1 =
      (getCapabilities { snapshot := defaultSnapshot, callback := some (0, sampleReading) }).1 ∧
    tauriGetCapabilities false true createNode = serializeCaps (deriveCaps defaultSnapshot) :=
  ⟨(C4_get_capabilities_total.1 createNode).1,
   (C4_get_capabilities_total.1 createNode).2,
   C4_get_capabilities_total.2.1 createNode _ rfl,
   C4_get_capabilities_total.2.2.2.2.2.2 createNode⟩

/-- C8 (code bug in the williw callback): invoked with every output
pointer supplied and all JNI steps succeeding except a null battery
manager from `getSystemService`, the callback reports success (status 0)
and has written memory, cpu and network — yet has left both supplied
battery slots untouched, contradicting the contract that slots may stay
unwritten only under a nonzero status. -/
theorem C8_success_with_unwritten_battery :
    (williwGetDeviceInfo batteryMgrNullEnv true true true 16 true true).status = 0 ∧
    (williwGetDeviceInfo batteryMgrNullEnv true true true 16 true true).memory = some 4096 ∧
    (williwGetDeviceInfo batteryMgrNullEnv true true true 16 true true).cpu = some 8 ∧
    (williwGetDeviceInfo batteryMgrNullEnv true true true 16 true true).net = some "wifi" ∧
    (williwGetDeviceInfo batteryMgrNullEnv true true true 16 true true).battery = none ∧
    (williwGetDeviceInfo batteryMgrNullEnv true true true 16 true true).charging = none := by
  decide

/-- C9 counterexample: called with a zero-capacity network buffer the ggb
callback still stores bytes — its `strncpy` count underflows to 2^64 - 1 —
so not every write lands strictly below the capacity. -/
theorem C9_counterexample :
    0 < ggbNetStrncpyCount 0 ∧ ¬ ggbNetWritesWithinCapacity 0 :=
  ⟨by decide, fun h => Nat.not_lt_zero _ h.2⟩

/-- C9 (amended): for every capacity of at least 1 (any value a size_t
can carry) the ggb callback keeps all network-buffer writes strictly
within the capacity with the NUL terminator at capacity-1, and the
williw callback keeps its writes within the capacity for every capacity,
writing nothing at all at capacity 0; the unguarded ggb variant violates
the claim only at capacity 0. -/
theorem C9_network_buffer_bounded :
    (∀ len : Nat, 1 ≤ len → len < SIZE_T_MOD →
      ggbNetStrncpyCount len = len - 1 ∧ ggbNetTermIndex len = len - 1 ∧
      ggbNetWritesWithinCapacity len) ∧
    (∀ srcLen len cnt t : Nat, williwNetWrites srcLen len = some (cnt, t) →
      cnt ≤ t ∧ t < len) ∧
    (∀ len cnt t : Nat, williwNetFallbackWrites len = some (cnt, t) →
      cnt ≤ t ∧ t < len) ∧
    (∀ srcLen : Nat, williwNetWrites srcLen 0 = none) ∧
    williwNetFallbackWrites 0 = none := by
  have hm : 0 < SIZE_T_MOD := by norm_num [SIZE_T_MOD]
  refine ⟨?_, ?_, ?_, fun srcLen => rfl, rfl⟩
  · intro len h1 h2
    have e : len + (SIZE_T_MOD - 1) = (len - 1) + SIZE_T_MOD := by omega
    have ec : ggbNetStrncpyCount len = len - 1 := by
      rw [ggbNetStrncpyCount, e, Nat.add_mod_right, Nat.mod_eq_of_lt (by omega)]
    have et : ggbNetTermIndex len = len - 1 := by
      rw [ggbNetTermIndex, e, Nat.add_mod_right, Nat.mod_eq_of_lt (by omega)]
    exact ⟨ec, et, by rw [ggbNetWritesWithinCapacity, ec, et]; omega⟩
  · intro srcLen len cnt t h
    rw [williwNetWrites] at h
    split_ifs at h with h0
    have hmin := Nat.min_le_right srcLen (len - 1)
    simp only [Option.some.injEq, Prod.mk.injEq] at h
    obtain ⟨h1, h2⟩ := h
    omega
  · intro len cnt t h
    rw [williwNetFallbackWrites] at h
    split_ifs at h with h0
    simp only [Option.some.injEq, Prod.mk.injEq] at h
    obtain ⟨h1, h2⟩ := h
    omega

/-- Closed witness for the amended C9 at capacity 8 with a 4-byte network
string: both variants terminate strictly within the buffer. -/
theorem C9_witness :
    (ggbNetStrncpyCount 8 = 7 ∧ ggbNetTermIndex 8 = 7 ∧ ggbNetWritesWithinCapacity 8) ∧
    (4 ≤ 4 ∧ 4 < 8) :=
  ⟨C9_network_buffer_bounded.1 8 (by decide) (by decide),
   C9_network_buffer_bounded.2.1 4 8 4 4 (by decide)⟩

/-- C10 counterexample: with the single process-wide registration slot of
williw_jni.cpp, node 1 registers Java object 10 as its telemetry source;
after node 2 registers object 30, node 1's effective telemetry source
has changed to object 30 — so registering for one node does change the
refresh behaviour of the other. -/
theorem C10_counterexample :
    effectiveTelemetrySource
      (nativeSetDeviceCallback ⟨none, none⟩ (fun _ => false) 1 10 20).1
      (nativeSetDeviceCallback ⟨none, none⟩ (fun _ => false) 1 10 20).2 1 = some 10 ∧
    effectiveTelemetrySource
      (nativeSetDeviceCallback
        (nativeSetDeviceCallback ⟨none, none⟩ (fun _ => false) 1 10 20).1
        (nativeSetDeviceCallback ⟨none, none⟩ (fun _ => false) 1 10 20).2 2 30 40).1
      (nativeSetDeviceCallback
        (nativeSetDeviceCallback ⟨none, none⟩ (fun _ => false) 1 10 20).1
        (nativeSetDeviceCallback ⟨none, none⟩ (fun _ => false) 1 10 20).2 2 30 40).2 1 =
      some 30 := by
  decide

/-- C10 (amended): the callback-registration table is a single
process-wide slot, not keyed per node handle: any registration replaces
the globals with the latest Java objects, and every node whose Rust
callback is set then reads that same latest object; only the per-handle
Rust callback flag is node-local. -/
theorem C10_registration_shared_slot :
    ∀ (g : JniGlobals) (cb : Nat → Bool) (handle thiz ctx other : Nat),
      (nativeSetDeviceCallback g cb handle thiz ctx).1 = ⟨some thiz, some ctx⟩ ∧
      (other ≠ handle → (nativeSetDeviceCallback g cb handle thiz ctx).2 other = cb other) ∧
      (∀ h : Nat, (nativeSetDeviceCallback g cb handle thiz ctx).2 h = true →
        effectiveTelemetrySource (nativeSetDeviceCallback g cb handle thiz ctx).1
          (nativeSetDeviceCallback g cb handle thiz ctx).2 h = some thiz) := by
  intro g cb handle thiz ctx other
  refine ⟨rfl, fun hne => ?_, fun h hset => ?_⟩
  · simp [nativeSetDeviceCallback, hne]
  · simp only [nativeSetDeviceCallback] at hset
    simp only [effectiveTelemetrySource, nativeSetDeviceCallback, hset]
    by_cases hh : h = handle
    · simp [hh]
    · simp only [hh, if_false] at hset
      simp [hset, hh]

/-- Closed witness for the amended C10: registering node 2's object 30
leaves node 1's Rust callback flag alone but any registered node reads
object 30. -/
theorem C10_witness :
    (nativeSetDeviceCallback ⟨none, none⟩ (fun _ => false) 2 30 40).1 = ⟨some 30, some 40⟩ ∧
    (nativeSetDeviceCallback ⟨none, none⟩ (fun _ => false) 2 30 40).2 1 = (fun _ => false) 1 ∧
    effectiveTelemetrySource (nativeSetDeviceCallback ⟨none, none⟩ (fun _ => false) 2 30 40).1
      (nativeSetDeviceCallback ⟨none, none⟩ (fun _ => false) 2 30 40).2 2 = some 30 :=
  ⟨(C10_registration_shared_slot ⟨none, none⟩ (fun _ => false) 2 30 40 1).1,
   (C10_registration_shared_slot ⟨none, none⟩ (fun _ => false) 2 30 40 1).2.1 (by decide),
   (C10_registration_shared_slot ⟨none, none⟩ (fun _ => false) 2 30 40 1).2.2 2 (by decide)⟩
